import Mathlib

/-!
Shallow embedding of the grpctest package (grpctest.go): an httptest-like
gRPC test server with lifecycle management (unstarted, started, closed),
self-signed certificate issuance for the TLS variant, and a lazily cached
client connection.

External effects (listening on a port, dialing, randomness, fallible crypto
primitives) are modelled through an explicit `World` record: fresh ports and
connection identifiers come from counters, and each fallible external call
is driven by a Boolean failure flag.  Functions that can panic in Go return
`Except String`, the error message being the panic message.
-/

/-- An elliptic curve, as selected by `elliptic.P256()` etc. -/
inductive Curve where
  | P256
  | P384
  | P521
deriving DecidableEq, Repr

/-- An ECDSA private key: the curve it lives on and the secret scalar
(drawn from the randomness supplied by the world). -/
structure ECPrivateKey where
  curve : Curve
  d : Nat
deriving DecidableEq, Repr

/-- An ECDSA public key paired with a private key. -/
structure ECPublicKey where
  curve : Curve
  point : Nat
deriving DecidableEq, Repr

/-- The public half of a key pair (abstract: the point is determined by the
secret scalar). -/
def ECPrivateKey.publicKey (k : ECPrivateKey) : ECPublicKey :=
  { curve := k.curve, point := k.d }

/-- x509 key-usage bits (`x509.KeyUsage`). -/
inductive KeyUsage where
  | keyEncipherment
  | digitalSignature
deriving DecidableEq, Repr

/-- x509 extended-key-usage values (`x509.ExtKeyUsage`). -/
inductive ExtKeyUsage where
  | serverAuth
  | clientAuth
deriving DecidableEq, Repr

/-- A distinguished name (`pkix.Name`), restricted to the fields the
program sets. -/
structure PkixName where
  organization : List String
  commonName : String
deriving DecidableEq, Repr

/-- An IP address as produced by `net.ParseIP`; modelled by its textual
form. -/
structure IP where
  text : String
deriving DecidableEq, Repr

/-- `net.ParseIP`. -/
def ParseIP (s : String) : IP := ⟨s⟩

/-- An x509 certificate (`x509.Certificate`), restricted to the fields the
program sets or reads.  The same record serves as the template handed to
`x509.CreateCertificate`. -/
structure Certificate where
  serialNumber : Nat
  subject : PkixName
  issuer : PkixName
  notBefore : Nat
  notAfter : Nat
  keyUsage : List KeyUsage
  extKeyUsage : List ExtKeyUsage
  basicConstraintsValid : Bool
  dnsNames : List String
  ipAddresses : List IP
  publicKey : ECPublicKey
deriving DecidableEq, Repr

/-- `x509.CreateCertificate(rand, template, parent, pub, priv)`: the issued
certificate carries the fields of the template, the subject of the parent as issuer,
and the given public key.  (DER bytes are modelled by the certificate value
itself; `x509.ParseCertificate` is then the identity.) -/
def CreateCertificate (template parent : Certificate) (pub : ECPublicKey) :
    Certificate :=
  { template with issuer := parent.subject, publicKey := pub }

/-- `x509.ParseCertificate` on DER bytes we just produced. -/
def ParseCertificate (der : Certificate) : Certificate := der

/-- `x509.MarshalECPrivateKey` (DER form modelled by the key itself). -/
def MarshalECPrivateKey (k : ECPrivateKey) : ECPrivateKey := k

/-- Payload of a PEM block: either certificate DER or EC-key DER. -/
inductive DerBytes where
  | cert (c : Certificate)
  | ecKey (k : ECPrivateKey)
deriving DecidableEq, Repr

/-- A PEM block (`pem.Block`). -/
structure PemBlock where
  type : String
  bytes : DerBytes
deriving DecidableEq, Repr

/-- `pem.EncodeToMemory` (the textual encoding is modelled by the block
itself). -/
def PemEncodeToMemory (b : PemBlock) : PemBlock := b

/-- TLS protocol versions (`tls.VersionTLS13` etc.). -/
inductive TLSVersion where
  | tls10
  | tls11
  | tls12
  | tls13
deriving DecidableEq, Repr

/-- A loadable credential bundle (`tls.Certificate`). -/
structure TLSCertificate where
  leaf : Certificate
  privateKey : ECPrivateKey
deriving DecidableEq, Repr

/-- `tls.X509KeyPair`: parses the PEM pair back into a credential bundle.
`fail` drives the external failure of this call. -/
def X509KeyPair (certPEM keyPEM : PemBlock) (fail : Bool) :
    Option TLSCertificate :=
  if fail then none
  else
    match certPEM.bytes, keyPEM.bytes with
    | DerBytes.cert c, DerBytes.ecKey k => some { leaf := c, privateKey := k }
    | _, _ => none

/-- A transport configuration (`tls.Config`), restricted to the fields the
program sets. -/
structure TLSConfig where
  certificates : List TLSCertificate
  minVersion : Option TLSVersion
  rootCAs : Option (List Certificate)
  serverName : String
deriving DecidableEq, Repr

/-- A gRPC server option (`grpc.ServerOption`): either transport
credentials derived from a TLS configuration, or an opaque caller-supplied
option. -/
inductive ServerOption where
  | creds (cfg : TLSConfig)
  | user (n : Nat)
deriving DecidableEq, Repr

/-- A gRPC dial option (`grpc.DialOption`): transport credentials (insecure
or TLS) or an opaque caller-supplied option. -/
inductive DialOption where
  | insecureTransport
  | tlsTransport (cfg : TLSConfig)
  | user (n : Nat)
deriving DecidableEq, Repr

/-- The underlying `grpc.Server`, as observable here: the options it was
constructed with and whether the registration callback ran against it. -/
structure GrpcServer where
  opts : List ServerOption
  registered : Bool
deriving DecidableEq, Repr

/-- A network listener (`net.Listener`) bound to an address. -/
structure NetListener where
  addr : String
deriving DecidableEq, Repr

/-- `ServerConfig`: the registration callback (modelled by whether one was
supplied) and the appendable gRPC server options. -/
structure ServerConfig where
  registerService : Bool
  ServerOptions : List ServerOption
deriving DecidableEq, Repr

/-- The `Server` struct of grpctest.go.  Client connections are identified
by the `Nat` the world allocated for them, so that object identity of the
cached connection is observable. -/
structure Server where
  URL : String
  TLS : Option TLSConfig
  Listener : Option NetListener
  Config : ServerConfig
  server : Option GrpcServer
  started : Bool
  closed : Bool
  client : Option Nat
  useTLS : Bool
  cert : Option Certificate
deriving DecidableEq, Repr

/-- The external world: counters handing out fresh ports and connection
identifiers, the wall clock, the randomness consumed by certificate
generation, and one failure flag per fallible external call. -/
structure World where
  nextPort : Nat := 40000
  nextConnId : Nat := 0
  time : Nat := 0
  keyRand : Nat := 1
  serialRand : Nat := 7
  listenFail : Bool := false
  keyGenFail : Bool := false
  serialFail : Bool := false
  createCertFail : Bool := false
  parseCertFail : Bool := false
  marshalKeyFail : Bool := false
  keyPairFail : Bool := false
  dialFail : Bool := false
deriving DecidableEq, Repr

/-- `time.Hour` in nanoseconds (the unit of Go durations). -/
def goHour : Nat := 3600000000000

/-- The textual form of the local address a fresh listener binds
(`listener.Addr().String()` for a listener on `127.0.0.1:0`). -/
def mkAddr (port : Nat) : String := "127.0.0.1:" ++ toString port

/-- `NewUnstartedServer(registerFunc)`: records the callback and an empty
options list; performs no I/O. -/
def NewUnstartedServer (registerFunc : Bool) : Server :=
  { URL := ""
    TLS := none
    Listener := none
    Config := { registerService := registerFunc, ServerOptions := [] }
    server := none
    started := false
    closed := false
    client := none
    useTLS := false
    cert := none }

/-- The internal `start` method: binds a listener on a fresh port, records
URL and listener, builds the option list (adding TLS credentials when in
TLS mode with a configuration present), constructs the gRPC server, runs
the registration callback, launches the accept loop, and marks the server
started.  Returns an error when the listener cannot bind. -/
def Server.startInternal (s : Server) (w : World) :
    Except String (Server × World) :=
  if s.started then Except.ok (s, w)
  else if w.listenFail then Except.error "failed to create listener"
  else
    let lst : NetListener := { addr := mkAddr w.nextPort }
    let w := { w with nextPort := w.nextPort + 1 }
    let s := { s with Listener := some lst, URL := lst.addr }
    let opts :=
      match s.useTLS, s.TLS with
      | true, some cfg => s.Config.ServerOptions ++ [ServerOption.creds cfg]
      | _, _ => s.Config.ServerOptions
    let s := { s with
      server := some { opts := opts, registered := s.Config.registerService } }
    Except.ok ({ s with started := true }, w)

/-- `setupTLS`: generates a P-256 key pair, draws a 128-bit serial number,
builds the certificate template bound to localhost and the loopback
addresses and valid for 24 hours from now, self-signs it, parses it back,
stores it on the server, PEM-encodes certificate and key, loads them as a
key pair, and installs a TLS configuration requiring TLS 1.3.  Each
fallible external call can fail through its world flag. -/
def Server.setupTLS (s : Server) (w : World) :
    Except String (Server × World) :=
  if w.keyGenFail then Except.error "failed to generate private key"
  else
    let priv : ECPrivateKey := { curve := Curve.P256, d := w.keyRand }
    let notBefore := w.time
    let notAfter := notBefore + 24 * goHour
    if w.serialFail then Except.error "failed to generate serial number"
    else
      let serialNumber := w.serialRand % 2 ^ 128
      let template : Certificate :=
        { serialNumber := serialNumber
          subject := { organization := ["grpctest"], commonName := "localhost" }
          issuer := { organization := [], commonName := "" }
          notBefore := notBefore
          notAfter := notAfter
          keyUsage := [KeyUsage.keyEncipherment, KeyUsage.digitalSignature]
          extKeyUsage := [ExtKeyUsage.serverAuth]
          basicConstraintsValid := true
          dnsNames := ["localhost"]
          ipAddresses := [ParseIP "127.0.0.1", ParseIP "::1"]
          publicKey := { curve := Curve.P256, point := 0 } }
      if w.createCertFail then Except.error "failed to create certificate"
      else
        let derBytes := CreateCertificate template template priv.publicKey
        if w.parseCertFail then Except.error "failed to parse certificate"
        else
          let cert := ParseCertificate derBytes
          let s := { s with cert := some cert }
          let certPEM := PemEncodeToMemory
            { type := "CERTIFICATE", bytes := DerBytes.cert derBytes }
          if w.marshalKeyFail then
            Except.error "failed to marshal private key"
          else
            let privBytes := MarshalECPrivateKey priv
            let keyPEM := PemEncodeToMemory
              { type := "EC PRIVATE KEY", bytes := DerBytes.ecKey privBytes }
            match X509KeyPair certPEM keyPEM w.keyPairFail with
            | none => Except.error "failed to create TLS certificate"
            | some tlsCert =>
              let cfg : TLSConfig :=
                { certificates := [tlsCert]
                  minVersion := some TLSVersion.tls13
                  rootCAs := none
                  serverName := "" }
              Except.ok ({ s with TLS := some cfg }, w)

/-- `Start`: no-op when already started; otherwise clears the TLS mode flag
and runs the internal start, turning its error into a panic message. -/
def Server.Start (s : Server) (w : World) : Except String (Server × World) :=
  if s.started then Except.ok (s, w)
  else
    let s := { s with useTLS := false }
    match s.startInternal w with
    | Except.ok sw => Except.ok sw
    | Except.error e =>
      Except.error ("grpctest: failed to start server: " ++ e)

/-- `StartTLS`: no-op when already started; otherwise sets the TLS mode
flag, runs certificate setup and then the internal start, turning either
error into a panic message. -/
def Server.StartTLS (s : Server) (w : World) :
    Except String (Server × World) :=
  if s.started then Except.ok (s, w)
  else
    let s := { s with useTLS := true }
    match s.setupTLS w with
    | Except.error e => Except.error ("grpctest: failed to setup TLS: " ++ e)
    | Except.ok (s, w) =>
      match s.startInternal w with
      | Except.error e =>
        Except.error ("grpctest: failed to start server: " ++ e)
      | Except.ok sw => Except.ok sw

/-- `NewServer`: create unstarted, then `Start`. -/
def NewServer (registerFunc : Bool) (w : World) :
    Except String (Server × World) :=
  (NewUnstartedServer registerFunc).Start w

/-- `NewTLSServer`: create unstarted, then `StartTLS`. -/
def NewTLSServer (registerFunc : Bool) (w : World) :
    Except String (Server × World) :=
  (NewUnstartedServer registerFunc).StartTLS w

/-- The observable side effects of `Close`, in the order they are
performed. -/
inductive CloseEffect where
  | closeClient (conn : Nat)
  | stopServer
  | closeListener
deriving DecidableEq, Repr

/-- `Close`: no-op when already closed; otherwise marks the server closed,
then closes the cached client connection if present, stops the gRPC server
if present, and closes the listener if present, in that order.  It is
total: it never faults. -/
def Server.Close (s : Server) : Server × List CloseEffect :=
  if s.closed then (s, [])
  else
    let s := { s with closed := true }
    let p1 : Server × List CloseEffect :=
      match s.client with
      | some c => ({ s with client := none }, [CloseEffect.closeClient c])
      | none => (s, [])
    let p2 : Server × List CloseEffect :=
      match p1.1.server with
      | some _ => ({ p1.1 with server := none }, [CloseEffect.stopServer])
      | none => (p1.1, [])
    let p3 : Server × List CloseEffect :=
      match p2.1.Listener with
      | some _ => ({ p2.1 with Listener := none }, [CloseEffect.closeListener])
      | none => (p2.1, [])
    (p3.1, p1.2 ++ p2.2 ++ p3.2)

/-- `Certificate`: returns the stored certificate (nil for non-TLS
servers). -/
def Server.Certificate (s : Server) : Option Certificate := s.cert

/-- `ClientConn`: returns the cached connection when present; panics when
the server has not started; otherwise builds dial options matching the
mode of the server (trusting the stored certificate for TLS servers), dials a
fresh connection, caches it and returns it.  Dial failure is a panic. -/
def Server.ClientConn (s : Server) (w : World) :
    Except String (Server × World × Nat) :=
  match s.client with
  | some c => Except.ok (s, w, c)
  | none =>
    if !s.started then Except.error "grpctest: server not started"
    else
      match
        (if s.useTLS then
          match s.cert with
          | some c =>
            Except.ok [DialOption.tlsTransport
              { certificates := []
                minVersion := none
                rootCAs := some [c]
                serverName := "localhost" }]
          | none =>
            (Except.error "runtime error: invalid memory address" :
              Except String (List DialOption))
        else Except.ok [DialOption.insecureTransport]) with
      | Except.error e => Except.error e
      | Except.ok _ =>
        if w.dialFail then
          Except.error "grpctest: failed to dial server: dial error"
        else
          let c := w.nextConnId
          let w := { w with nextConnId := w.nextConnId + 1 }
          Except.ok ({ s with client := some c }, w, c)

/-- Modelled from the spec: an options-taking form of the client-connection
accessor is described by the specification but absent from the sources
(the `ClientConn` in grpctest.go takes no arguments).  Per the spec, when
caller-supplied transport options are provided the accessor bypasses the
cache and returns a freshly dialed connection that the caller must close;
with no options it behaves as the cached accessor. -/
def Server.ClientConnWithOptions (s : Server) (w : World)
    (opts : List DialOption) : Except String (Server × World × Nat) :=
  if opts.isEmpty then s.ClientConn w
  else if !s.started then Except.error "grpctest: server not started"
  else if w.dialFail then
    Except.error "grpctest: failed to dial server: dial error"
  else
    let c := w.nextConnId
    Except.ok (s, { w with nextConnId := w.nextConnId + 1 }, c)

/-- The option list the internal start hands to the gRPC server
constructor. -/
def startOpts (s : Server) : List ServerOption :=
  match s.useTLS, s.TLS with
  | true, some cfg => s.Config.ServerOptions ++ [ServerOption.creds cfg]
  | _, _ => s.Config.ServerOptions

/-- The server state produced by a successful internal start from a
not-yet-started server in world `w`. -/
def startedServer (s : Server) (w : World) : Server :=
  { s with
    Listener := some { addr := mkAddr w.nextPort }
    URL := mkAddr w.nextPort
    server := some { opts := startOpts s
                     registered := s.Config.registerService }
    started := true }

/-- The private key a successful certificate setup generates in world
`w`. -/
def issuedKey (w : World) : ECPrivateKey :=
  { curve := Curve.P256, d := w.keyRand }

/-- The certificate a successful certificate setup issues in world `w`. -/
def issuedCert (w : World) : Certificate :=
  { serialNumber := w.serialRand % 2 ^ 128
    subject := { organization := ["grpctest"], commonName := "localhost" }
    issuer := { organization := ["grpctest"], commonName := "localhost" }
    notBefore := w.time
    notAfter := w.time + 24 * goHour
    keyUsage := [KeyUsage.keyEncipherment, KeyUsage.digitalSignature]
    extKeyUsage := [ExtKeyUsage.serverAuth]
    basicConstraintsValid := true
    dnsNames := ["localhost"]
    ipAddresses := [ParseIP "127.0.0.1", ParseIP "::1"]
    publicKey := { curve := Curve.P256, point := w.keyRand } }

/-- The transport configuration a successful certificate setup installs in
world `w`. -/
def issuedTLSConfig (w : World) : TLSConfig :=
  { certificates := [{ leaf := issuedCert w, privateKey := issuedKey w }]
    minVersion := some TLSVersion.tls13
    rootCAs := none
    serverName := "" }

/-- A concrete started plaintext server holding cached connection 0, used
to instantiate theorems with hypotheses. -/
def sampleStarted : Server :=
  { NewUnstartedServer true with
    URL := mkAddr 40000
    Listener := some { addr := mkAddr 40000 }
    server := some { opts := [], registered := true }
    started := true
    client := some 0 }

/-- A concrete world whose connection counter has already handed out
connection 0. -/
def wOne : World := { nextConnId := 1 }

/-! ### Helper lemmas -/

/-- The address built for a fresh listener is never the empty string. -/
theorem listener_addr_ne_empty (p : Nat) :
    mkAddr p ≠ "" := by
  rw [mkAddr]
  intro h
  have h2 := congrArg String.length h
  rw [String.length_append] at h2
  have h3 : ("127.0.0.1:" : String).length = 10 := rfl
  have h4 : ("" : String).length = 0 := rfl
  omega

/-- A first `Close` (on a not-yet-closed server) marks the server closed and
clears the cached client, the gRPC server and the listener, leaving every
other field unchanged. -/
theorem Close_state (s : Server) (h : s.closed = false) :
    (s.Close).1 =
      { s with closed := true, client := none, server := none,
               Listener := none } := by
  obtain ⟨u, t, l, cf, sv, st, cl, ci, ut, ce⟩ := s
  simp only at h
  subst h
  cases ci <;> cases sv <;> cases l <;> rfl

/-- `Close` on an already-closed server changes nothing and performs no
effect. -/
theorem Close_closed (s : Server) (h : s.closed = true) :
    s.Close = (s, []) := by
  simp [Server.Close, h]

/-- `Close` preserves the started flag. -/
theorem Close_started (s : Server) : (s.Close).1.started = s.started := by
  cases h : s.closed
  · rw [Close_state s h]
  · rw [Close_closed s h]

/-- The cached accessor returns the cached connection unchanged when one is
present. -/
theorem ClientConn_cached (s : Server) (w : World) (c : Nat)
    (hc : s.client = some c) :
    s.ClientConn w = Except.ok (s, w, c) := by
  simp [Server.ClientConn, hc]

/-- The cached accessor, when no connection is cached and the server is
started (with a certificate present in TLS mode) and dialing succeeds,
dials the fresh connection handed out by the world and caches it. -/
theorem ClientConn_fresh (s : Server) (w : World)
    (hc : s.client = none) (hs : s.started = true)
    (hcert : s.useTLS = true → (s.cert).isSome)
    (hd : w.dialFail = false) :
    s.ClientConn w =
      Except.ok ({ s with client := some w.nextConnId },
        { w with nextConnId := w.nextConnId + 1 }, w.nextConnId) := by
  cases hu : s.useTLS
  · simp [Server.ClientConn, hc, hs, hd, hu]
  · obtain ⟨ct, hct⟩ := Option.isSome_iff_exists.mp (hcert hu)
    simp [Server.ClientConn, hc, hs, hd, hu, hct]

/-- Whenever the cached accessor returns a connection, that connection is
the cached one afterwards. -/
theorem ClientConn_caches (s s' : Server) (w w' : World) (c : Nat)
    (h : s.ClientConn w = Except.ok (s', w', c)) :
    s'.client = some c := by
  unfold Server.ClientConn at h
  cases hc : s.client with
  | some c0 =>
    rw [hc] at h
    simp only [Except.ok.injEq, Prod.mk.injEq] at h
    obtain ⟨h1, _, h3⟩ := h
    rw [← h1, hc, h3]
  | none =>
    rw [hc] at h
    by_cases hs : s.started = true
    · simp only [hs, Bool.not_true, Bool.false_eq_true, if_false] at h
      cases hu : s.useTLS
      · simp only [hu, Bool.false_eq_true, if_false] at h
        by_cases hd : w.dialFail = true
        · simp [hd] at h
        · simp only [Bool.not_eq_true] at hd
          simp only [hd, Bool.false_eq_true, if_false, Except.ok.injEq,
            Prod.mk.injEq] at h
          obtain ⟨h1, _, h3⟩ := h
          rw [← h1, h3]
      · cases hct : s.cert with
        | none => simp [hu, hct] at h
        | some ct =>
          simp only [hu, hct, if_true] at h
          by_cases hd : w.dialFail = true
          · simp [hd] at h
          · simp only [Bool.not_eq_true] at hd
            simp only [hd, Bool.false_eq_true, if_false, Except.ok.injEq,
              Prod.mk.injEq] at h
            obtain ⟨h1, _, h3⟩ := h
            rw [← h1, h3]
    · simp only [Bool.not_eq_true] at hs
      simp [hs] at h

/-- Equation for the internal start on a not-yet-started server whose
listener binds. -/
theorem startInternal_eq (s : Server) (w : World)
    (hs : s.started = false) (hl : w.listenFail = false) :
    s.startInternal w =
      Except.ok (startedServer s w, { w with nextPort := w.nextPort + 1 }) := by
  simp [Server.startInternal, hs, hl, startedServer, startOpts]

/-- Inversion for a successful internal start from a not-yet-started
server. -/
theorem startInternal_ok (s s' : Server) (w w' : World)
    (hs : s.started = false)
    (h : s.startInternal w = Except.ok (s', w')) :
    w.listenFail = false ∧ s' = startedServer s w ∧
      w' = { w with nextPort := w.nextPort + 1 } := by
  by_cases hl : w.listenFail = true
  · simp [Server.startInternal, hs, hl] at h
  · rw [Bool.not_eq_true] at hl
    rw [startInternal_eq s w hs hl] at h
    simp only [Except.ok.injEq, Prod.mk.injEq] at h
    exact ⟨hl, h.1.symm, h.2.symm⟩

/-- Equation for certificate setup when every fallible external call
succeeds. -/
theorem setupTLS_eq (s : Server) (w : World)
    (h1 : w.keyGenFail = false) (h2 : w.serialFail = false)
    (h3 : w.createCertFail = false) (h4 : w.parseCertFail = false)
    (h5 : w.marshalKeyFail = false) (h6 : w.keyPairFail = false) :
    s.setupTLS w =
      Except.ok ({ s with cert := some (issuedCert w)
                          TLS := some (issuedTLSConfig w) }, w) := by
  simp [Server.setupTLS, h1, h2, h3, h4, h5, h6, X509KeyPair,
    PemEncodeToMemory, MarshalECPrivateKey, ParseCertificate,
    CreateCertificate, ECPrivateKey.publicKey, issuedCert, issuedTLSConfig,
    issuedKey]

/-- Inversion for a successful certificate setup. -/
theorem setupTLS_ok (s s' : Server) (w w' : World)
    (h : s.setupTLS w = Except.ok (s', w')) :
    w' = w ∧
      s' = { s with cert := some (issuedCert w)
                    TLS := some (issuedTLSConfig w) } := by
  by_cases h1 : w.keyGenFail = true
  · simp [Server.setupTLS, h1] at h
  by_cases h2 : w.serialFail = true
  · simp [Server.setupTLS, h1, h2] at h
  by_cases h3 : w.createCertFail = true
  · simp [Server.setupTLS, h1, h2, h3] at h
  by_cases h4 : w.parseCertFail = true
  · simp [Server.setupTLS, h1, h2, h3, h4] at h
  by_cases h5 : w.marshalKeyFail = true
  · simp [Server.setupTLS, h1, h2, h3, h4, h5] at h
  by_cases h6 : w.keyPairFail = true
  · simp [Server.setupTLS, X509KeyPair, h1, h2, h3, h4, h5, h6] at h
  rw [Bool.not_eq_true] at h1 h2 h3 h4 h5 h6
  rw [setupTLS_eq s w h1 h2 h3 h4 h5 h6] at h
  simp only [Except.ok.injEq, Prod.mk.injEq] at h
  exact ⟨h.2.symm, h.1.symm⟩

/-- Inversion for a successful `Start` from a not-yet-started server. -/
theorem Start_ok (s s' : Server) (w w' : World)
    (hs : s.started = false)
    (h : s.Start w = Except.ok (s', w')) :
    w.listenFail = false ∧
      s' = startedServer { s with useTLS := false } w ∧
      w' = { w with nextPort := w.nextPort + 1 } := by
  rw [Server.Start] at h
  simp only [hs, Bool.false_eq_true, if_false] at h
  simp only [hs]
  cases hsi :
      Server.startInternal { s with started := false, useTLS := false } w with
  | error e => rw [hsi] at h; cases h
  | ok p =>
    rw [hsi] at h
    simp only [Except.ok.injEq] at h
    subst h
    exact startInternal_ok _ s' w w' rfl hsi

/-- Inversion for a successful `StartTLS` from a not-yet-started server:
the final state is the started form of the server carrying the issued
certificate and TLS configuration. -/
theorem StartTLS_ok (s s' : Server) (w w' : World)
    (hs : s.started = false)
    (h : s.StartTLS w = Except.ok (s', w')) :
    w.listenFail = false ∧
      s' = startedServer
        { s with useTLS := true
                 cert := some (issuedCert w)
                 TLS := some (issuedTLSConfig w) } w ∧
      w' = { w with nextPort := w.nextPort + 1 } := by
  rw [Server.StartTLS] at h
  simp only [hs, Bool.false_eq_true, if_false] at h
  simp only [hs]
  cases hst :
      Server.setupTLS { s with started := false, useTLS := true } w with
  | error e => rw [hst] at h; cases h
  | ok p =>
    obtain ⟨p1, p2⟩ := p
    rw [hst] at h
    obtain ⟨hw1, hp1⟩ := setupTLS_ok _ p1 w p2 hst
    dsimp only at h
    cases hsi : Server.startInternal p1 p2 with
    | error e =>
      rw [hsi] at h
      cases h
    | ok q =>
      rw [hsi] at h
      simp only [Except.ok.injEq] at h
      subst h
      have hp1s : p1.started = false := by
        rw [hp1]
      have := startInternal_ok p1 s' p2 w' hp1s hsi
      rw [hp1, hw1] at this
      exact this

/-- Inversion for a successful cache-miss dial of the cached accessor. -/
theorem ClientConn_fresh_id (s s' : Server) (w w' : World) (c : Nat)
    (hc : s.client = none)
    (h : s.ClientConn w = Except.ok (s', w', c)) :
    s.started = true ∧ w.dialFail = false ∧ c = w.nextConnId ∧
      s' = { s with client := some w.nextConnId } ∧
      w' = { w with nextConnId := w.nextConnId + 1 } := by
  by_cases hs : s.started = true
  case neg =>
    rw [Bool.not_eq_true] at hs
    unfold Server.ClientConn at h
    rw [hc] at h
    simp [hs] at h
  by_cases hd : w.dialFail = true
  case pos =>
    exfalso
    unfold Server.ClientConn at h
    rw [hc] at h
    simp only [hs, Bool.not_true, Bool.false_eq_true, if_false] at h
    cases hu : s.useTLS
    · simp [hu, hd] at h
    · cases hct : s.cert
      · simp [hu, hct] at h
      · simp [hu, hct, hd] at h
  rw [Bool.not_eq_true] at hd
  have hcert : s.useTLS = true → (s.cert).isSome := by
    intro hu
    cases hct : s.cert
    · exfalso
      unfold Server.ClientConn at h
      rw [hc] at h
      simp [hs, hu, hct] at h
    · rfl
  rw [ClientConn_fresh s w hc hs hcert hd] at h
  simp only [Except.ok.injEq, Prod.mk.injEq] at h
  exact ⟨hs, hd, h.2.2.symm, h.1.symm, h.2.1.symm⟩

/-! ### Claims -/

/-- C7: for every server that has never been started (so no connection is
cached and the started flag is unset), the client-connection accessor
panics with a descriptive message instead of dialing or returning a
connection. -/
theorem claim7_unstarted_panics (s : Server) (w : World)
    (hclient : s.client = none) (hstart : s.started = false) :
    s.ClientConn w = Except.error "grpctest: server not started" := by
  unfold Server.ClientConn
  rw [hclient]
  simp [hstart]

/-- Witness for C7 at the freshly constructed unstarted server. -/
theorem claim7_witness :
    (NewUnstartedServer true).client = none ∧
    (NewUnstartedServer true).started = false ∧
    (NewUnstartedServer true).ClientConn ({} : World) =
      Except.error "grpctest: server not started" :=
  ⟨rfl, rfl, claim7_unstarted_panics (NewUnstartedServer true) {} rfl rfl⟩

/-- Counterexample to C3: starting a TLS server and closing it, the
certificate accessor still returns the issued certificate after `Close`
returns — the certificate is not discarded. -/
theorem claim3_counterexample :
    ∃ s1 w1 cert, NewTLSServer true ({} : World) = Except.ok (s1, w1) ∧
      s1.Certificate = some cert ∧
      ((s1.Close).1).Certificate = some cert := by
  refine ⟨_, _, _, rfl, rfl, rfl⟩

/-- C3 amended: for every server (TLS-mode ones included), `Close` leaves
the stored certificate untouched, so the certificate accessor returns the
issued certificate even after `Close` returns. -/
theorem claim3_amended_cert_retained (s : Server) :
    ((s.Close).1).Certificate = s.Certificate := by
  cases hcl : s.closed
  · rw [Close_state s hcl]
    rfl
  · rw [Close_closed s hcl]

/-- C5: `Close` never faults (it is a total function); the first call on a
not-yet-closed server closes the cached client connection if present, then
stops the RPC server if present, then closes the listener if present, in
that order; any further call is a no-op; and a call on a never-started
server (no server, no listener, no cached client) performs no effect and
only records the closed flag. -/
theorem claim5_close_idempotent (s : Server) (hcl : s.closed = false) :
    (s.Close).2 =
      (match s.client with
       | some c => [CloseEffect.closeClient c]
       | none => []) ++
      (if (s.server).isSome then [CloseEffect.stopServer] else []) ++
      (if (s.Listener).isSome then [CloseEffect.closeListener] else []) ∧
    (s.Close).1.Close = ((s.Close).1, []) ∧
    (s.server = none → s.Listener = none → s.client = none →
      (s.Close).2 = [] ∧ (s.Close).1 = { s with closed := true }) := by
  refine ⟨?_, ?_, ?_⟩
  · obtain ⟨u, t, l, cf, sv, st, cl, ci, ut, ce⟩ := s
    simp only at hcl
    subst hcl
    cases ci <;> cases sv <;> cases l <;> rfl
  · exact Close_closed _ (by rw [Close_state s hcl])
  · intro h1 h2 h3
    obtain ⟨u, t, l, cf, sv, st, cl, ci, ut, ce⟩ := s
    simp only at hcl h1 h2 h3
    subst hcl h1 h2 h3
    exact ⟨rfl, rfl⟩

/-- Witness for C5 at a concrete started server holding a cached
connection. -/
theorem claim5_witness :
    sampleStarted.closed = false ∧
    ((sampleStarted.Close).2 =
      (match sampleStarted.client with
       | some c => [CloseEffect.closeClient c]
       | none => []) ++
      (if (sampleStarted.server).isSome then [CloseEffect.stopServer]
       else []) ++
      (if (sampleStarted.Listener).isSome then [CloseEffect.closeListener]
       else []) ∧
    (sampleStarted.Close).1.Close = ((sampleStarted.Close).1, []) ∧
    (sampleStarted.server = none → sampleStarted.Listener = none →
      sampleStarted.client = none →
      (sampleStarted.Close).2 = [] ∧
        (sampleStarted.Close).1 = { sampleStarted with closed := true })) :=
  ⟨rfl, claim5_close_idempotent sampleStarted rfl⟩

/-- C6: whenever the no-option accessor returns a connection, an immediate
repeat call returns the identical connection; the returned connection is
the cached one (created fresh from the counter of the world on a cache miss),
and the cache holds no other connection — at most one cached connection
per server. -/
theorem claim6_cached_conn_identical (s s' : Server) (w w' : World) (c : Nat)
    (h : s.ClientConn w = Except.ok (s', w', c)) :
    s'.ClientConn w' = Except.ok (s', w', c) ∧
    s'.client = some c ∧
    (s.client = none → c = w.nextConnId) ∧
    (∀ c', s'.client = some c' → c' = c) := by
  have hcache := ClientConn_caches s s' w w' c h
  refine ⟨ClientConn_cached s' w' c hcache, hcache, ?_, ?_⟩
  · intro hnone
    exact (ClientConn_fresh_id s s' w w' c hnone h).2.2.1
  · intro c' hc'
    rw [hcache] at hc'
    exact (Option.some.inj hc').symm

/-- Witness for C6 at a concrete started server holding cached
connection 0. -/
theorem claim6_witness :
    sampleStarted.ClientConn ({} : World) =
      Except.ok (sampleStarted, ({} : World), 0) ∧
    (sampleStarted.ClientConn ({} : World) =
      Except.ok (sampleStarted, ({} : World), 0) ∧
    sampleStarted.client = some 0 ∧
    (sampleStarted.client = none → 0 = ({} : World).nextConnId) ∧
    (∀ c', sampleStarted.client = some c' → c' = 0)) :=
  ⟨rfl, claim6_cached_conn_identical sampleStarted sampleStarted {} {} 0 rfl⟩

/-- Counterexample to C2: closing a never-started server does not make the
closed state terminal — a subsequent `Start` succeeds and marks the server
started while the closed flag is still set, so the server sits in two
lifecycle states at once. -/
theorem claim2_counterexample :
    (((NewUnstartedServer true).Close).1).closed = true ∧
    ∃ s2 w2, (((NewUnstartedServer true).Close).1).Start ({} : World) =
        Except.ok (s2, w2) ∧
      s2.started = true ∧ s2.closed = true := by
  refine ⟨rfl, _, _, rfl, rfl, rfl⟩

/-- C2 amended: the closed state is terminal only for servers that were
started before `Close`; for those, `Start` and `StartTLS` after `Close`
are no-ops (the started flag, which `Close` preserves, is the sole guard),
leaving the server closed.  A server closed from the unstarted state can
still be started (see the counterexample). -/
theorem claim2_amended_closed_terminal_after_start (s : Server) (w : World)
    (h : s.started = true) :
    ((s.Close).1).Start w = Except.ok ((s.Close).1, w) ∧
    ((s.Close).1).StartTLS w = Except.ok ((s.Close).1, w) ∧
    ((s.Close).1).closed = true := by
  have hst : ((s.Close).1).started = true := by
    rw [Close_started]
    exact h
  have hcl : ((s.Close).1).closed = true := by
    cases hc : s.closed
    · rw [Close_state s hc]
    · rw [Close_closed s hc]
      exact hc
  refine ⟨?_, ?_, hcl⟩
  · rw [Server.Start, if_pos hst]
  · rw [Server.StartTLS, if_pos hst]

/-- Witness for the amended C2 at a concrete started server. -/
theorem claim2_witness :
    sampleStarted.started = true ∧
    (((sampleStarted.Close).1).Start wOne =
        Except.ok ((sampleStarted.Close).1, wOne) ∧
      ((sampleStarted.Close).1).StartTLS wOne =
        Except.ok ((sampleStarted.Close).1, wOne) ∧
      ((sampleStarted.Close).1).closed = true) :=
  ⟨rfl, claim2_amended_closed_terminal_after_start sampleStarted wOne rfl⟩

/-- C8: the bound address of a freshly constructed server is the empty
string, and after a successful `Start` or `StartTLS` from the unstarted
state the bound address is non-empty (the assigned local listener
address). -/
theorem claim8_url_empty_until_start (b : Bool) (s : Server) (w : World)
    (hs : s.started = false) :
    (NewUnstartedServer b).URL = "" ∧
    (∀ s' w', s.Start w = Except.ok (s', w') → s'.URL ≠ "") ∧
    (∀ s' w', s.StartTLS w = Except.ok (s', w') → s'.URL ≠ "") := by
  refine ⟨rfl, ?_, ?_⟩
  · intro s' w' h
    obtain ⟨-, hs', -⟩ := Start_ok s s' w w' hs h
    rw [hs']
    exact listener_addr_ne_empty w.nextPort
  · intro s' w' h
    obtain ⟨-, hs', -⟩ := StartTLS_ok s s' w w' hs h
    rw [hs']
    exact listener_addr_ne_empty w.nextPort

/-- Witness for C8 at the freshly constructed unstarted server. -/
theorem claim8_witness :
    (NewUnstartedServer true).started = false ∧
    ((NewUnstartedServer true).URL = "" ∧
     (∀ s' w', (NewUnstartedServer true).Start ({} : World) =
        Except.ok (s', w') → s'.URL ≠ "") ∧
     (∀ s' w', (NewUnstartedServer true).StartTLS ({} : World) =
        Except.ok (s', w') → s'.URL ≠ "")) :=
  ⟨rfl, claim8_url_empty_until_start true (NewUnstartedServer true) {} rfl⟩

/-- C9: a server started in plaintext mode has no TLS configuration and no
certificate; a server started in TLS mode has a TLS configuration present
and a certificate covering localhost (both in its DNS names and as its
subject common name). -/
theorem claim9_tls_mode_fields (b : Bool) (w : World) :
    (∀ s' w', NewServer b w = Except.ok (s', w') →
      s'.TLS = none ∧ s'.Certificate = none) ∧
    (∀ s' w', NewTLSServer b w = Except.ok (s', w') →
      (s'.TLS).isSome = true ∧
      ∃ cert, s'.Certificate = some cert ∧
        cert.dnsNames = ["localhost"] ∧
        cert.subject.commonName = "localhost") := by
  constructor
  · intro s' w' h
    obtain ⟨-, hs', -⟩ := Start_ok (NewUnstartedServer b) s' w w' rfl h
    rw [hs']
    exact ⟨rfl, rfl⟩
  · intro s' w' h
    obtain ⟨-, hs', -⟩ := StartTLS_ok (NewUnstartedServer b) s' w w' rfl h
    rw [hs']
    exact ⟨rfl, issuedCert w, rfl, rfl, rfl⟩

/-- Witness for C9 at concretely started plaintext and TLS servers. -/
theorem claim9_witness :
    ∃ sP wP sT wT, NewServer true ({} : World) = Except.ok (sP, wP) ∧
      NewTLSServer true ({} : World) = Except.ok (sT, wT) ∧
      (sP.TLS = none ∧ sP.Certificate = none) ∧
      ((sT.TLS).isSome = true ∧
        ∃ cert, sT.Certificate = some cert ∧
          cert.dnsNames = ["localhost"] ∧
          cert.subject.commonName = "localhost") := by
  refine ⟨_, _, _, _, rfl, rfl, ?_, ?_⟩
  · exact (claim9_tls_mode_fields true {}).1 _ _ rfl
  · exact (claim9_tls_mode_fields true {}).2 _ _ rfl

/-- C10: on a server that was started and then closed (with a connection
cached before closing), the client-connection accessor does not panic and
does not return the previously cached connection: `Close` cleared the
cache but left the started flag set, so the accessor dials a brand-new
connection and caches it. -/
theorem claim10_clientconn_after_close (s : Server) (w : World) (c : Nat)
    (hs : s.started = true) (hcl : s.closed = false)
    (hc : s.client = some c) (hwf : c < w.nextConnId)
    (hcert : s.useTLS = true → (s.cert).isSome)
    (hd : w.dialFail = false) :
    ((s.Close).1).ClientConn w =
      Except.ok ({ (s.Close).1 with client := some w.nextConnId },
        { w with nextConnId := w.nextConnId + 1 }, w.nextConnId) ∧
    w.nextConnId ≠ c ∧
    ((s.Close).1).started = true := by
  have h1 : ((s.Close).1).client = none := by rw [Close_state s hcl]
  have h2 : ((s.Close).1).started = true := by
    rw [Close_started]
    exact hs
  have h3 : ((s.Close).1).useTLS = true → (((s.Close).1).cert).isSome := by
    rw [Close_state s hcl]
    exact hcert
  exact ⟨ClientConn_fresh _ w h1 h2 h3 hd, by omega, h2⟩

/-- Witness for C10 at a concrete started-then-closed server. -/
theorem claim10_witness :
    sampleStarted.started = true ∧ sampleStarted.closed = false ∧
    sampleStarted.client = some 0 ∧ 0 < wOne.nextConnId ∧
    wOne.dialFail = false ∧
    (((sampleStarted.Close).1).ClientConn wOne =
      Except.ok
        ({ (sampleStarted.Close).1 with client := some wOne.nextConnId },
          { wOne with nextConnId := wOne.nextConnId + 1 },
          wOne.nextConnId) ∧
    wOne.nextConnId ≠ 0 ∧
    ((sampleStarted.Close).1).started = true) :=
  ⟨rfl, rfl, rfl, by decide, rfl,
    claim10_clientconn_after_close sampleStarted wOne 0 rfl rfl rfl
      (by decide) (by decide) rfl⟩

/-- C1: invoked with caller-supplied transport options, the (spec-modelled)
options-taking accessor bypasses the cached connection — it returns the
fresh connection handed out by the world, distinct from the cached one,
and leaves the cache (hence the server state) untouched, so closing the
server will not close it; the no-option accessor never does this: any
connection it returns is the cached one afterwards. -/
theorem claim1_options_bypass_cache (s : Server) (w : World)
    (opts : List DialOption) (c : Nat)
    (hopts : opts ≠ []) (hc : s.client = some c) (hwf : c < w.nextConnId)
    (hs : s.started = true) (hd : w.dialFail = false) :
    (s.ClientConnWithOptions w opts =
        Except.ok (s, { w with nextConnId := w.nextConnId + 1 },
          w.nextConnId) ∧
      w.nextConnId ≠ c) ∧
    (∀ (t t' : Server) (v v' : World) (d : Nat),
      t.ClientConn v = Except.ok (t', v', d) → t'.client = some d) := by
  refine ⟨⟨?_, by omega⟩,
    fun t t' v v' d hx => ClientConn_caches t t' v v' d hx⟩
  have he : opts.isEmpty = false := by
    cases opts
    · exact absurd rfl hopts
    · rfl
  unfold Server.ClientConnWithOptions
  simp [he, hs, hd]

/-- Witness for C1 at a concrete started server holding cached
connection 0, dialed with one caller-supplied option. -/
theorem claim1_witness :
    [DialOption.user 5] ≠ ([] : List DialOption) ∧
    sampleStarted.client = some 0 ∧ 0 < wOne.nextConnId ∧
    sampleStarted.started = true ∧ wOne.dialFail = false ∧
    ((sampleStarted.ClientConnWithOptions wOne [DialOption.user 5] =
        Except.ok (sampleStarted,
          { wOne with nextConnId := wOne.nextConnId + 1 },
          wOne.nextConnId) ∧
      wOne.nextConnId ≠ 0) ∧
    (∀ (t t' : Server) (v v' : World) (d : Nat),
      t.ClientConn v = Except.ok (t', v', d) → t'.client = some d)) :=
  ⟨by decide, rfl, by decide, rfl, rfl,
    claim1_options_bypass_cache sampleStarted wOne [DialOption.user 5] 0
      (by decide) rfl (by decide) rfl rfl⟩

/-- C4: every successful `StartTLS` from the unstarted state issues an
elliptic-curve (P-256) key pair and a self-signed certificate (issuer
equals subject) whose template covers the DNS name localhost and the
loopback addresses 127.0.0.1 and ::1, is valid from generation time for
exactly 24 hours, and is marked for server-authentication usage; the
installed transport configuration requires at least TLS 1.3. -/
theorem claim4_certificate_generation (s s' : Server) (w w' : World)
    (hs : s.started = false)
    (h : s.StartTLS w = Except.ok (s', w')) :
    ∃ cert cfg, s'.cert = some cert ∧ s'.TLS = some cfg ∧
      cert.publicKey.curve = Curve.P256 ∧
      (∀ tc ∈ cfg.certificates, tc.privateKey.curve = Curve.P256) ∧
      cert.issuer = cert.subject ∧
      cert.dnsNames = ["localhost"] ∧
      cert.ipAddresses = [ParseIP "127.0.0.1", ParseIP "::1"] ∧
      cert.notBefore = w.time ∧
      cert.notAfter = cert.notBefore + 24 * goHour ∧
      cert.extKeyUsage = [ExtKeyUsage.serverAuth] ∧
      cfg.minVersion = some TLSVersion.tls13 := by
  obtain ⟨-, hs', -⟩ := StartTLS_ok s s' w w' hs h
  rw [hs']
  refine ⟨issuedCert w, issuedTLSConfig w, rfl, rfl, rfl, ?_, rfl, rfl,
    rfl, rfl, rfl, rfl, rfl⟩
  intro tc htc
  simp only [issuedTLSConfig, List.mem_singleton] at htc
  rw [htc]
  rfl

/-- Witness for C4 at a concretely started TLS server. -/
theorem claim4_witness :
    (NewUnstartedServer true).started = false ∧
    ∃ s' w', (NewUnstartedServer true).StartTLS ({} : World) =
        Except.ok (s', w') ∧
      ∃ cert cfg, s'.cert = some cert ∧ s'.TLS = some cfg ∧
        cert.publicKey.curve = Curve.P256 ∧
        (∀ tc ∈ cfg.certificates, tc.privateKey.curve = Curve.P256) ∧
        cert.issuer = cert.subject ∧
        cert.dnsNames = ["localhost"] ∧
        cert.ipAddresses = [ParseIP "127.0.0.1", ParseIP "::1"] ∧
        cert.notBefore = ({} : World).time ∧
        cert.notAfter = cert.notBefore + 24 * goHour ∧
        cert.extKeyUsage = [ExtKeyUsage.serverAuth] ∧
        cfg.minVersion = some TLSVersion.tls13 := by
  refine ⟨rfl, _, _, rfl, ?_⟩
  exact claim4_certificate_generation (NewUnstartedServer true) _
    ({} : World) _ rfl rfl
